import Mathlib

/-!
Verification development for the `iris_spot` scene-preparation scripts.

The definitions below are a shallow embedding of the two Python scripts:

* `1_run_after_copy_images.py` — per-scene project preparation: the
  mask-cache encoder `build_caches_from_mask`, the array materializer
  `write_rgb_npy_to_dest`, the geolocation resolver `compute_center_latlon`,
  and the per-scene configuration templating of `create_projects_per_id`.
* `2_run_after_edit.py` — the harvester loop that copies mask previews.

Rasters are modelled as functions over `Fin`-indexed coordinates, pixel
values as `Nat` (uint8 codes 0–255), and numpy boolean arrays as
`Bool`-valued functions.
-/

namespace IrisSpot

/-- An RGB color triple, as stored in `class_colors` (tuple of three ints). -/
abbrev RGB := Nat × Nat × Nat

/-- The remap step `m = np.where(m == 255, 0, m)`: 255 is folded to 0 before
classification, everything else passes through. -/
def remap255 (v : Nat) : Nat := if v = 255 then 0 else v

/-- `onehot[:, :, k] |= p`: OR a 2-d predicate into channel `k` of a
(H, W, K) boolean array, leaving other channels unchanged. -/
def orChannel {H W K : Nat} (o : Fin H → Fin W → Fin K → Bool) (k : Nat)
    (p : Fin H → Fin W → Bool) : Fin H → Fin W → Fin K → Bool :=
  fun y x c => o y x c || (decide (c.val = k) && p y x)

/-- The one-hot array built by `build_caches_from_mask`: starting from
`np.zeros((H, W, K), dtype=bool)`, the `Clear` channel (when present in the
class table) receives the pixels whose remapped value is 0, and the `Cloud`
channel (when present) receives the pixels with remapped value 1 and, by the
fallback OR, those with remapped value strictly above 1. -/
def buildOnehot (classes : List String) {H W : Nat} (mRaw : Fin H → Fin W → Nat) :
    Fin H → Fin W → Fin classes.length → Bool :=
  let m : Fin H → Fin W → Nat := fun y x => remap255 (mRaw y x)
  let o0 : Fin H → Fin W → Fin classes.length → Bool := fun _ _ _ => false
  let o1 := if "Clear" ∈ classes then
      orChannel o0 (classes.indexOf "Clear") (fun y x => decide (m y x = 0))
    else o0
  let o2 := if "Cloud" ∈ classes then
      orChannel o1 (classes.indexOf "Cloud") (fun y x => decide (m y x = 1))
    else o1
  let o3 := if "Cloud" ∈ classes then
      orChannel o2 (classes.indexOf "Cloud") (fun y x => decide (m y x > 1))
    else o2
  o3

/-- One step of the preview-rendering loop
`rgbmask[onehot[:, :, k]] = class_colors[k]`: pixels whose channel `k` is true
are repainted with color `k`, all other pixels keep their previous color. -/
def paintClass {H W K : Nat} (class_colors : Fin K → RGB)
    (onehot : Fin H → Fin W → Fin K → Bool)
    (img : Fin H → Fin W → RGB) (k : Fin K) : Fin H → Fin W → RGB :=
  fun y x => if onehot y x k then class_colors k else img y x

/-- The color preview `mask.png`: start from `np.zeros((H, W, 3))` (black)
and paint each class channel in class-table order. -/
def renderMask {H W K : Nat} (class_colors : Fin K → RGB)
    (onehot : Fin H → Fin W → Fin K → Bool) : Fin H → Fin W → RGB :=
  (List.finRange K).foldl (paintClass class_colors onehot) (fun _ _ => (0, 0, 0))

/-- The three arrays written by `build_caches_from_mask` for one scene:
`1_final.npy` (H, W, K boolean one-hot), `1_user.npy` (H, W boolean validity
mask) and `mask.png` (H, W color preview). -/
structure SegCaches (classes : List String) (H W : Nat) where
  final : Fin H → Fin W → Fin classes.length → Bool
  user : Fin H → Fin W → Bool
  maskPng : Fin H → Fin W → RGB

/-- `build_caches_from_mask`, given the mask raster already read as uint8:
remaps 255 to 0, builds the one-hot array, sets the user mask to
`np.ones((H, W), dtype=bool)`, and renders the color preview. -/
def build_caches_from_mask (classes : List String)
    (class_colors : Fin classes.length → RGB) {H W : Nat}
    (mRaw : Fin H → Fin W → Nat) : SegCaches classes H W :=
  { final := buildOnehot classes mRaw
    user := fun _ _ => true
    maskPng := renderMask class_colors (buildOnehot classes mRaw) }

/-- Characterization of the one-hot array for an arbitrary class table:
channel `k` of a pixel is set exactly when `k` is the (first) index of
`"Clear"` and the remapped value is 0, or `k` is the (first) index of
`"Cloud"` and the remapped value is at least 1. -/
theorem buildOnehot_eq_true_iff (classes : List String) {H W : Nat}
    (mRaw : Fin H → Fin W → Nat) (y : Fin H) (x : Fin W) (k : Fin classes.length) :
    buildOnehot classes mRaw y x k = true ↔
      (("Clear" ∈ classes ∧ k.val = classes.indexOf "Clear" ∧ remap255 (mRaw y x) = 0) ∨
       ("Cloud" ∈ classes ∧ k.val = classes.indexOf "Cloud" ∧ 1 ≤ remap255 (mRaw y x))) := by
  by_cases hc : "Clear" ∈ classes <;> by_cases hd : "Cloud" ∈ classes <;>
    simp only [buildOnehot, hc, hd, if_true, if_false, ite_true, ite_false, orChannel,
      Bool.or_eq_true, Bool.and_eq_true, decide_eq_true_eq, Bool.false_eq_true,
      true_and, false_and, false_or, or_false] <;>
    omega

/-- In a class table containing both names, the index of `"Clear"` differs
from the index of `"Cloud"`. -/
theorem indexOf_clear_ne_cloud (classes : List String)
    (hc : "Clear" ∈ classes) (hd : "Cloud" ∈ classes) :
    classes.indexOf "Clear" ≠ classes.indexOf "Cloud" := by
  intro h
  have h1 : classes.get ⟨classes.indexOf "Clear", List.indexOf_lt_length.mpr hc⟩ = "Clear" :=
    List.indexOf_get _
  have h2 : classes.get ⟨classes.indexOf "Cloud", List.indexOf_lt_length.mpr hd⟩ = "Cloud" :=
    List.indexOf_get _
  have hsame : ("Clear" : String) = "Cloud" := by
    rw [← h1, ← h2]
    congr 1
    exact Fin.ext h
  exact absurd hsame (by decide)

/-- At every pixel there is a unique set channel, when both class names are
present: the `Clear` channel if the remapped value is 0, else the `Cloud`
channel. -/
theorem buildOnehot_unique_channel (classes : List String)
    (hc : "Clear" ∈ classes) (hd : "Cloud" ∈ classes)
    {H W : Nat} (mRaw : Fin H → Fin W → Nat) (y : Fin H) (x : Fin W) :
    ∃ t : Fin classes.length,
      ∀ k : Fin classes.length, (buildOnehot classes mRaw y x k = true ↔ k = t) := by
  have hne := indexOf_clear_ne_cloud classes hc hd
  rcases Nat.eq_zero_or_pos (remap255 (mRaw y x)) with hm | hm
  · refine ⟨⟨classes.indexOf "Clear", List.indexOf_lt_length.mpr hc⟩, fun k => ?_⟩
    rw [buildOnehot_eq_true_iff]
    constructor
    · rintro (⟨_, hk, _⟩ | ⟨_, _, h1⟩)
      · exact Fin.ext hk
      · omega
    · intro hk
      exact Or.inl ⟨hc, by rw [hk], hm⟩
  · refine ⟨⟨classes.indexOf "Cloud", List.indexOf_lt_length.mpr hd⟩, fun k => ?_⟩
    rw [buildOnehot_eq_true_iff]
    constructor
    · rintro (⟨_, _, h0⟩ | ⟨_, hk, _⟩)
      · omega
      · exact Fin.ext hk
    · intro hk
      exact Or.inr ⟨hd, by rw [hk], hm⟩

/-- Claim C1: for every single-band mask raster and every class table
containing both `"Clear"` and `"Cloud"`, the one-hot array produced by
`build_caches_from_mask` has, at every pixel, a channel vector summing to
exactly 1: no pixel is unassigned and no pixel has two classes set. -/
theorem claim1_onehot_sum_one (classes : List String)
    (hc : "Clear" ∈ classes) (hd : "Cloud" ∈ classes)
    (class_colors : Fin classes.length → RGB)
    {H W : Nat} (mRaw : Fin H → Fin W → Nat) (y : Fin H) (x : Fin W) :
    (∑ k : Fin classes.length,
      (if (build_caches_from_mask classes class_colors mRaw).final y x k then 1 else 0)) = 1 := by
  obtain ⟨t, key⟩ := buildOnehot_unique_channel classes hc hd mRaw y x
  have hfinal : (build_caches_from_mask classes class_colors mRaw).final = buildOnehot classes mRaw :=
    rfl
  have step : ∀ k : Fin classes.length,
      (if (build_caches_from_mask classes class_colors mRaw).final y x k then (1 : ℕ) else 0) =
        if k = t then 1 else 0 := by
    intro k
    rw [hfinal]
    by_cases hk : buildOnehot classes mRaw y x k = true
    · rw [if_pos hk, if_pos ((key k).mp hk)]
    · rw [if_neg hk, if_neg (fun h => hk ((key k).mpr h))]
  rw [Finset.sum_congr rfl (fun k _ => step k), Finset.sum_ite_eq']
  simp

/-- Claim C1 witness: concrete 1×1 raster with pixel value 7 and class table
`["Clear", "Cloud"]`. -/
theorem claim1_onehot_sum_one_witness :
    ("Clear" ∈ ["Clear", "Cloud"] ∧ "Cloud" ∈ ["Clear", "Cloud"]) ∧
    (∑ k : Fin (["Clear", "Cloud"] : List String).length,
      (if (build_caches_from_mask ["Clear", "Cloud"] (fun _ => (0, 0, 0))
            (fun (_ : Fin 1) (_ : Fin 1) => 7)).final 0 0 k then 1 else 0)) = 1 :=
  ⟨⟨by decide, by decide⟩,
    claim1_onehot_sum_one ["Clear", "Cloud"] (by decide) (by decide)
      (fun _ => (0, 0, 0)) (fun _ _ => 7) 0 0⟩

/-- The remapped value is 0 exactly for raw values 0 and 255. -/
theorem remap255_eq_zero_iff (v : Nat) : remap255 v = 0 ↔ (v = 0 ∨ v = 255) := by
  simp only [remap255]
  split <;> omega

/-- For raw values in `0..255`, the remapped value is at least 1 exactly for
raw values in `1..254`. -/
theorem remap255_pos_iff (v : Nat) (hv : v ≤ 255) :
    1 ≤ remap255 v ↔ (1 ≤ v ∧ v ≤ 254) := by
  simp only [remap255]
  split <;> omega

/-- Claim C2: the remapping classifies every pixel value: 255 is remapped to
0 before classification, so 255 and 0 both set the `Clear` channel; value 1
sets the `Cloud` channel; and so does every value in `2..254`. -/
theorem claim2_remap_policy (classes : List String)
    (hc : "Clear" ∈ classes) (hd : "Cloud" ∈ classes)
    (class_colors : Fin classes.length → RGB)
    {H W : Nat} (mRaw : Fin H → Fin W → Nat) (y : Fin H) (x : Fin W)
    (hv : mRaw y x ≤ 255) :
    ((build_caches_from_mask classes class_colors mRaw).final y x
        ⟨classes.indexOf "Clear", List.indexOf_lt_length.mpr hc⟩ = true ↔
      (mRaw y x = 0 ∨ mRaw y x = 255)) ∧
    ((build_caches_from_mask classes class_colors mRaw).final y x
        ⟨classes.indexOf "Cloud", List.indexOf_lt_length.mpr hd⟩ = true ↔
      (1 ≤ mRaw y x ∧ mRaw y x ≤ 254)) := by
  have hne := indexOf_clear_ne_cloud classes hc hd
  have hfinal : (build_caches_from_mask classes class_colors mRaw).final =
      buildOnehot classes mRaw := rfl
  rw [hfinal]
  refine ⟨?_, ?_⟩
  · rw [buildOnehot_eq_true_iff, ← remap255_eq_zero_iff]
    constructor
    · rintro (⟨_, _, h0⟩ | ⟨_, hk, _⟩)
      · exact h0
      · exact absurd hk hne
    · intro h0
      exact Or.inl ⟨hc, rfl, h0⟩
  · rw [buildOnehot_eq_true_iff, ← remap255_pos_iff _ hv]
    constructor
    · rintro (⟨_, hk, _⟩ | ⟨_, _, h1⟩)
      · exact absurd hk.symm hne
      · exact h1
    · intro h1
      exact Or.inr ⟨hd, rfl, h1⟩

/-- Claim C2 witness: a concrete 1×1 raster with pixel value 255 and class
table `["Clear", "Cloud"]`. -/
theorem claim2_remap_policy_witness :
    ("Clear" ∈ (["Clear", "Cloud"] : List String) ∧
     "Cloud" ∈ (["Clear", "Cloud"] : List String) ∧ (255 : Nat) ≤ 255) ∧
    (((build_caches_from_mask ["Clear", "Cloud"] (fun _ => (0, 0, 0))
          (fun (_ : Fin 1) (_ : Fin 1) => 255)).final 0 0
        ⟨(["Clear", "Cloud"] : List String).indexOf "Clear",
          List.indexOf_lt_length.mpr (by decide)⟩ = true ↔
      ((255 : Nat) = 0 ∨ (255 : Nat) = 255)) ∧
    ((build_caches_from_mask ["Clear", "Cloud"] (fun _ => (0, 0, 0))
          (fun (_ : Fin 1) (_ : Fin 1) => 255)).final 0 0
        ⟨(["Clear", "Cloud"] : List String).indexOf "Cloud",
          List.indexOf_lt_length.mpr (by decide)⟩ = true ↔
      (1 ≤ (255 : Nat) ∧ (255 : Nat) ≤ 254))) :=
  ⟨⟨by decide, by decide, by decide⟩,
    claim2_remap_policy ["Clear", "Cloud"] (by decide) (by decide)
      (fun _ => (0, 0, 0)) (fun _ _ => 255) 0 0 (by decide)⟩

/-- Claim C3: the validity (user) mask written as `1_user.npy` is an
(H, W) boolean array whose entries are all true, for every raster and every
class table. -/
theorem claim3_user_mask_all_true (classes : List String)
    (class_colors : Fin classes.length → RGB)
    {H W : Nat} (mRaw : Fin H → Fin W → Nat) (y : Fin H) (x : Fin W) :
    (build_caches_from_mask classes class_colors mRaw).user y x = true := rfl

/-- Claim C7: channels are assigned by class-table order (via the first index
of each class name), any class table is tolerated without error, and a pixel
whose class name is absent from the table simply has no channel set. -/
theorem claim7_any_class_table (classes : List String)
    (class_colors : Fin classes.length → RGB)
    {H W : Nat} (mRaw : Fin H → Fin W → Nat) (y : Fin H) (x : Fin W) :
    (∀ k : Fin classes.length,
      (build_caches_from_mask classes class_colors mRaw).final y x k = true ↔
        (("Clear" ∈ classes ∧ k.val = classes.indexOf "Clear" ∧ remap255 (mRaw y x) = 0) ∨
         ("Cloud" ∈ classes ∧ k.val = classes.indexOf "Cloud" ∧ 1 ≤ remap255 (mRaw y x)))) ∧
    ("Clear" ∉ classes → remap255 (mRaw y x) = 0 →
      ∀ k : Fin classes.length,
        (build_caches_from_mask classes class_colors mRaw).final y x k = false) ∧
    ("Cloud" ∉ classes → 1 ≤ remap255 (mRaw y x) →
      ∀ k : Fin classes.length,
        (build_caches_from_mask classes class_colors mRaw).final y x k = false) := by
  have hfinal : (build_caches_from_mask classes class_colors mRaw).final =
      buildOnehot classes mRaw := rfl
  rw [hfinal]
  refine ⟨fun k => buildOnehot_eq_true_iff classes mRaw y x k, ?_, ?_⟩
  · intro hcn h0 k
    rw [Bool.eq_false_iff]
    rw [show (buildOnehot classes mRaw y x k ≠ true) =
        ¬(buildOnehot classes mRaw y x k = true) from rfl]
    rw [buildOnehot_eq_true_iff]
    rintro (⟨hmem, _, _⟩ | ⟨_, _, h1⟩)
    · exact hcn hmem
    · omega
  · intro hdn h1 k
    rw [Bool.eq_false_iff]
    rw [show (buildOnehot classes mRaw y x k ≠ true) =
        ¬(buildOnehot classes mRaw y x k = true) from rfl]
    rw [buildOnehot_eq_true_iff]
    rintro (⟨_, _, h0⟩ | ⟨hmem, _, _⟩)
    · omega
    · exact hdn hmem

/-- Claim C7 witness: class table `["Cloud"]` missing `"Clear"`, concrete
1×1 raster of zeros: the encoder still runs and the single channel is unset. -/
theorem claim7_any_class_table_witness :
    ("Clear" ∉ (["Cloud"] : List String) ∧ remap255 0 = 0) ∧
    (build_caches_from_mask ["Cloud"] (fun _ => (0, 0, 0))
        (fun (_ : Fin 1) (_ : Fin 1) => 0)).final 0 0 ⟨0, by decide⟩ = false :=
  ⟨⟨by decide, rfl⟩,
    (claim7_any_class_table ["Cloud"] (fun _ => (0, 0, 0))
      (fun _ _ => 0) 0 0).2.1 (by decide) rfl ⟨0, by decide⟩⟩

/-- Folding the paint loop over any channel list: a pixel's final color is
the color of the last channel in the list whose one-hot entry is true, or the
initial color when none is. -/
theorem foldl_paintClass_eq {H W K : Nat} (class_colors : Fin K → RGB)
    (onehot : Fin H → Fin W → Fin K → Bool) (y : Fin H) (x : Fin W) :
    ∀ (l : List (Fin K)) (init : Fin H → Fin W → RGB),
      l.foldl (paintClass class_colors onehot) init y x =
        ((l.filter (fun k => onehot y x k)).getLast?).elim (init y x) class_colors := by
  intro l
  induction l with
  | nil => intro init; rfl
  | cons a t ih =>
    intro init
    rw [List.foldl_cons, ih]
    by_cases hpa : onehot y x a = true
    · rw [List.filter_cons_of_pos hpa]
      cases hft : t.filter (fun k => onehot y x k) with
      | nil => simp [paintClass, hpa]
      | cons b r =>
        rw [List.getLast?_cons_cons]
        cases hv : (b :: r).getLast? with
        | none => simp at hv
        | some v => simp [hv]
    · rw [List.filter_cons_of_neg (by simpa using hpa)]
      cases hft : t.filter (fun k => onehot y x k) with
      | nil => simp [paintClass, hpa]
      | cons b r =>
        cases hv : (b :: r).getLast? with
        | none => simp at hv
        | some v => simp [hv]

/-- Claim C10: every pixel of the color preview `mask.png` whose one-hot
vector has a true channel is painted with the configured color of the last
such channel in class-table order, and every pixel with an all-false vector
is rendered black `(0, 0, 0)`. -/
theorem claim10_preview_last_color (classes : List String)
    (class_colors : Fin classes.length → RGB)
    {H W : Nat} (mRaw : Fin H → Fin W → Nat) (y : Fin H) (x : Fin W) :
    (build_caches_from_mask classes class_colors mRaw).maskPng y x =
      (((List.finRange classes.length).filter
          (fun k => (build_caches_from_mask classes class_colors mRaw).final y x k)).getLast?).elim
        (0, 0, 0) class_colors := by
  have hfinal : (build_caches_from_mask classes class_colors mRaw).final =
      buildOnehot classes mRaw := rfl
  have hmask : (build_caches_from_mask classes class_colors mRaw).maskPng =
      renderMask class_colors (buildOnehot classes mRaw) := rfl
  rw [hmask, hfinal]
  unfold renderMask
  exact foldl_paintClass_eq class_colors (buildOnehot classes mRaw) y x
    (List.finRange classes.length) (fun _ _ => (0, 0, 0))

/-! ### Array materializer (`write_rgb_npy_to_dest`) -/

/-- Numpy element types that occur in the scripts. -/
inductive DType where
  | uint8 : DType
  | float32 : DType
  | float64 : DType
  | boolean : DType
deriving DecidableEq

/-- A 3-dimensional numpy array: shape `(d0, d1, d2)`, an element dtype tag,
and the element at each index triple. -/
structure Arr3 (α : Type) where
  d0 : Nat
  d1 : Nat
  d2 : Nat
  dtype : DType
  at3 : Fin d0 → Fin d1 → Fin d2 → α

/-- `np.moveaxis(arr, 0, -1)` on a 3-d array: axis 0 becomes the last axis,
so the element at `(i, j, k)` of the result is the element at `(k, i, j)` of
the argument. -/
def np_moveaxis_0_last {α : Type} (a : Arr3 α) : Arr3 α :=
  { d0 := a.d1, d1 := a.d2, d2 := a.d0, dtype := a.dtype,
    at3 := fun i j k => a.at3 k i j }

/-- `.astype(dt)`: convert every element with the library's numeric cast and
retag the dtype. The cast is passed in, since its numeric semantics is the
library's. -/
def np_astype {α β : Type} (dt : DType) (cast : α → β) (a : Arr3 α) : Arr3 β :=
  { d0 := a.d0, d1 := a.d1, d2 := a.d2, dtype := dt,
    at3 := fun i j k => cast (a.at3 i j k) }

/-- `write_rgb_npy_to_dest`, applied to the band-major `(C, H, W)` array
returned by `src.read()`: move axis 0 to the end and convert to float32;
the result is the array persisted as `rgb.npy`. -/
def write_rgb_npy_to_dest {α β : Type} (cast : α → β) (src_read : Arr3 α) : Arr3 β :=
  np_astype DType.float32 cast (np_moveaxis_0_last src_read)

/-- Claim C6: for every band-major `(C, H, W)` source array, the persisted
array has shape `(H, W, C)` and dtype float32, and the source element at
band `c`, row `y`, column `x` appears (cast) at index `(y, x, c)` of the
output. -/
theorem claim6_rgb_npy_layout {α β : Type} (cast : α → β) (src_read : Arr3 α) :
    (write_rgb_npy_to_dest cast src_read).d0 = src_read.d1 ∧
    (write_rgb_npy_to_dest cast src_read).d1 = src_read.d2 ∧
    (write_rgb_npy_to_dest cast src_read).d2 = src_read.d0 ∧
    (write_rgb_npy_to_dest cast src_read).dtype = DType.float32 ∧
    ∀ (y : Fin src_read.d1) (x : Fin src_read.d2) (c : Fin src_read.d0),
      (write_rgb_npy_to_dest cast src_read).at3 y x c = cast (src_read.at3 c y x) :=
  ⟨rfl, rfl, rfl, rfl, fun _ _ _ => rfl⟩

/-! ### Harvester (`2_run_after_edit.py`) -/

/-- The fixed preview path looked up for a scene ID:
`spot/<ID>/<ID>.iris/segmentation/<ID>/mask.png`. -/
def src_path (id_name : String) : String :=
  "spot/" ++ id_name ++ "/" ++ id_name ++ ".iris/segmentation/" ++ id_name ++ "/mask.png"

/-- The flat output path for a scene ID: `save_mask/<ID>.png`. -/
def dst_path (id_name : String) : String :=
  "save_mask/" ++ id_name ++ ".png"

/-- Running state of the harvester loop: the `ok` and `missing` counters of
line 30 and the copies performed so far (source path, destination path).
The script increments only `missing`; `ok` is initialized to 0 and never
incremented. -/
structure HarvestState where
  ok : Nat
  missing : Nat
  copies : List (String × String)
deriving DecidableEq

/-- One iteration of the harvester loop: if the preview file is absent the ID
is counted as a miss (`missing += 1`) and the loop continues; otherwise it is
copied to the flat output directory. Neither branch touches `ok` — the
script never increments it. -/
def harvest_step (fs_exists : String → Bool) (st : HarvestState) (id_name : String) :
    HarvestState :=
  if !fs_exists (src_path id_name) then
    { st with missing := st.missing + 1 }
  else
    { st with copies := st.copies ++ [(src_path id_name, dst_path id_name)] }

/-- The harvester loop over the configured `IDS` list, starting from
`ok, missing = 0, 0` and no copies. `fs_exists` models which paths exist on
disk. -/
def harvest (fs_exists : String → Bool) (ids : List String) : HarvestState :=
  ids.foldl (harvest_step fs_exists) ⟨0, 0, []⟩

/-- Folding the harvester loop from an arbitrary running state: `ok` is left
untouched, `missing` grows by the number of absent previews, and the found
previews are appended in order. -/
theorem foldl_harvest_step_eq (fs_exists : String → Bool) :
    ∀ (ids : List String) (st : HarvestState),
      ids.foldl (harvest_step fs_exists) st =
        ⟨st.ok,
         st.missing + (ids.filter (fun i => !fs_exists (src_path i))).length,
         st.copies ++ (ids.filter (fun i => fs_exists (src_path i))).map
           (fun i => (src_path i, dst_path i))⟩ := by
  intro ids
  induction ids with
  | nil => intro st; simp
  | cons a t ih =>
    intro st
    rw [List.foldl_cons, ih]
    by_cases hpa : fs_exists (src_path a) = true
    · simp [harvest_step, hpa, List.filter_cons]
    · simp only [Bool.not_eq_true] at hpa
      simp [harvest_step, hpa, List.filter_cons]
      omega

/-- The harvester loop in closed form, from the initial state of line 30. -/
theorem harvest_eq (fs_exists : String → Bool) (ids : List String) :
    harvest fs_exists ids =
      ⟨0, (ids.filter (fun i => !fs_exists (src_path i))).length,
        (ids.filter (fun i => fs_exists (src_path i))).map
          (fun i => (src_path i, dst_path i))⟩ := by
  unfold harvest
  rw [foldl_harvest_step_eq]
  simp

/-- Claim C9: the harvester never aborts on a missing preview: the copies
are exactly the IDs whose preview exists, each going to `save_mask/<ID>.png`;
the misses are exactly the IDs whose preview is absent; and splitting the ID
list anywhere, the IDs after the split — whatever misses the prefix held —
are still processed exactly as they would be alone. -/
theorem claim9_harvest_continues (fs_exists : String → Bool) (ids : List String) :
    (harvest fs_exists ids).copies =
      (ids.filter (fun i => fs_exists (src_path i))).map
        (fun i => (src_path i, dst_path i)) ∧
    (harvest fs_exists ids).missing =
      (ids.filter (fun i => !fs_exists (src_path i))).length ∧
    ∀ (pre post : List String),
      (harvest fs_exists (pre ++ post)).copies =
        (harvest fs_exists pre).copies ++ (harvest fs_exists post).copies ∧
      (harvest fs_exists (pre ++ post)).missing =
        (harvest fs_exists pre).missing + (harvest fs_exists post).missing := by
  refine ⟨by rw [harvest_eq], by rw [harvest_eq], ?_⟩
  intro pre post
  rw [harvest_eq, harvest_eq, harvest_eq]
  constructor
  · simp [List.filter_append]
  · simp [List.filter_append]

/-! ### Geolocation resolver (`compute_center_latlon`) and metadata writing -/

/-- The bounding box reported by an open raster (`src.bounds`). -/
structure RasterBounds where
  left : ℚ
  right : ℚ
  bottom : ℚ
  top : ℚ

/-- The metadata of an open raster needed by `compute_center_latlon`: an
optional coordinate reference system and the bounding box. -/
structure RasterMeta where
  crs : Option String
  bounds : RasterBounds

/-- `compute_center_latlon`: if the raster has no CRS, return `None`;
otherwise take the bounding-box center and reproject it to EPSG:4326 with the
library's `transform` (passed in as `tfm`, returning the `(lon, lat)` pair),
and return `(lat, lon)`. -/
def compute_center_latlon (tfm : String → ℚ × ℚ → ℚ × ℚ) (src : RasterMeta) :
    Option (ℚ × ℚ) :=
  match src.crs with
  | none => none
  | some c =>
      let cx := (src.bounds.left + src.bounds.right) / 2
      let cy := (src.bounds.bottom + src.bounds.top) / 2
      let p := tfm c (cx, cy)
      some (p.2, p.1)

/-- The content of a scene's `metadata.json`: `{scene_id, location: [lat, lon]}`. -/
structure MetaJson where
  scene_id : String
  location : ℚ × ℚ
deriving DecidableEq

/-- The metadata step of `create_projects_per_id` for one scene: when
`compute_center_latlon` returns no location, only a warning is printed and no
`metadata.json` is written; otherwise the file is written with the scene ID
and the location. -/
def scene_metadata (tfm : String → ℚ × ℚ → ℚ × ℚ) (id_name : String)
    (src : RasterMeta) : Option MetaJson :=
  match compute_center_latlon tfm src with
  | none => none
  | some ll => some ⟨id_name, ll⟩

/-- The metadata step over a whole run: each scene in order yields its ID and
the optionally written `metadata.json`; a scene with no CRS never interrupts
the loop. -/
def process_scenes_metadata (tfm : String → ℚ × ℚ → ℚ × ℚ)
    (scenes : List (String × RasterMeta)) : List (String × Option MetaJson) :=
  scenes.map (fun sc => (sc.1, scene_metadata tfm sc.1 sc.2))

/-- Claim C8: a raster without CRS yields no location and no
`metadata.json`; the condition is non-fatal (every scene before and after it
is still processed, with its own entry); and in general `metadata.json` is
written exactly when geolocation succeeded, with the scene ID and location. -/
theorem claim8_no_crs_nonfatal (tfm : String → ℚ × ℚ → ℚ × ℚ)
    (src : RasterMeta) (hc : src.crs = none) (id_name : String)
    (pre post : List (String × RasterMeta)) :
    compute_center_latlon tfm src = none ∧
    scene_metadata tfm id_name src = none ∧
    process_scenes_metadata tfm (pre ++ (id_name, src) :: post) =
      process_scenes_metadata tfm pre ++ (id_name, none) ::
        process_scenes_metadata tfm post ∧
    (∀ (id2 : String) (src2 : RasterMeta),
      scene_metadata tfm id2 src2 =
        (compute_center_latlon tfm src2).map (fun ll => ⟨id2, ll⟩)) := by
  have hnone : compute_center_latlon tfm src = none := by
    unfold compute_center_latlon
    rw [hc]
  have hmeta : ∀ (id2 : String) (src2 : RasterMeta),
      scene_metadata tfm id2 src2 =
        (compute_center_latlon tfm src2).map (fun ll => (⟨id2, ll⟩ : MetaJson)) := by
    intro id2 src2
    unfold scene_metadata
    cases compute_center_latlon tfm src2 <;> rfl
  refine ⟨hnone, ?_, ?_, hmeta⟩
  · rw [hmeta, hnone]
    rfl
  · unfold process_scenes_metadata
    rw [List.map_append, List.map_cons]
    rw [show scene_metadata tfm id_name src = none by rw [hmeta, hnone]; rfl]

/-- Claim C8 witness: a concrete raster with no CRS between two scenes with a
CRS, under the identity reprojection. -/
theorem claim8_no_crs_nonfatal_witness :
    ((⟨none, ⟨0, 2, 0, 2⟩⟩ : RasterMeta).crs = none) ∧
    (compute_center_latlon (fun _ p => p) ⟨none, ⟨0, 2, 0, 2⟩⟩ = none ∧
     scene_metadata (fun _ p => p) "B" ⟨none, ⟨0, 2, 0, 2⟩⟩ = none ∧
     process_scenes_metadata (fun _ p => p)
        ([("A", ⟨some "EPSG:32618", ⟨0, 2, 0, 4⟩⟩)] ++
          ("B", (⟨none, ⟨0, 2, 0, 2⟩⟩ : RasterMeta)) ::
          [("C", ⟨some "EPSG:32618", ⟨2, 4, 2, 4⟩⟩)]) =
        process_scenes_metadata (fun _ p => p) [("A", ⟨some "EPSG:32618", ⟨0, 2, 0, 4⟩⟩)] ++
          ("B", none) ::
          process_scenes_metadata (fun _ p => p) [("C", ⟨some "EPSG:32618", ⟨2, 4, 2, 4⟩⟩)] ∧
     (∀ (id2 : String) (src2 : RasterMeta),
       scene_metadata (fun _ p => p) id2 src2 =
         (compute_center_latlon (fun _ p => p) src2).map (fun ll => ⟨id2, ll⟩))) :=
  ⟨rfl, claim8_no_crs_nonfatal (fun _ p => p) ⟨none, ⟨0, 2, 0, 2⟩⟩ rfl "B"
    [("A", ⟨some "EPSG:32618", ⟨0, 2, 0, 4⟩⟩)] [("C", ⟨some "EPSG:32618", ⟨2, 4, 2, 4⟩⟩)]⟩

/-! ### Project configuration templating (`create_projects_per_id`, lines 209–215) -/

/-- JSON documents as handled by `json.load` / `json.dumps`. Objects are
ordered key–value lists; the only numbers the script writes are integers. -/
inductive Json where
  | null : Json
  | bool : Bool → Json
  | num : Int → Json
  | str : String → Json
  | arr : List Json → Json
  | obj : List (String × Json) → Json

/-- Reading key `k` of a JSON object's field list (Python `d[k]`). -/
def getA : List (String × Json) → String → Option Json
  | [], _ => none
  | (k1, v1) :: rest, k => if k1 = k then some v1 else getA rest k

/-- Writing key `k` of a JSON object's field list (Python `d[k] = v`):
replaces the first binding of the key, or appends a new binding. -/
def setA : List (String × Json) → String → Json → List (String × Json)
  | [], k, v => [(k, v)]
  | (k1, v1) :: rest, k, v =>
      if k1 = k then (k, v) :: rest else (k1, v1) :: setA rest k v

/-- Python `d[k]` on a JSON value; `none` models the `TypeError`/`KeyError`
raised when `d` is not an object or lacks the key. -/
def Json.getKey : Json → String → Option Json
  | .obj fields, k => getA fields k
  | _, _ => none

/-- Python `d[k] = v` on a JSON value; `none` models the `TypeError` raised
when `d` is not an object. -/
def Json.setKey : Json → String → Json → Option Json
  | .obj fields, k, v => some (.obj (setA fields k v))
  | _, _, _ => none

/-- Python `d[k1][k2] = v`: read the inner object, assign in it, store it
back. `none` models the exception raised when a level is missing or not an
object. -/
def Json.setKey2 (j : Json) (k1 k2 : String) (v : Json) : Option Json :=
  match j.getKey k1 with
  | none => none
  | some inner =>
    match inner.setKey k2 v with
    | none => none
    | some inner2 => j.setKey k1 inner2

/-- Python `d.setdefault(k, v)`: keep an existing binding, insert `v`
otherwise; `none` models the `AttributeError` on a non-object. -/
def Json.setdefault : Json → String → Json → Option Json
  | .obj fields, k, v =>
    match getA fields k with
    | some _ => some (.obj fields)
    | none => some (.obj (setA fields k v))
  | _, _, _ => none

/-- The composite read `cfg[k1][k2]`, used to state properties. -/
def Json.getKey2 (j : Json) (k1 k2 : String) : Option Json :=
  (j.getKey k1).bind (fun inner => inner.getKey k2)

/-- The per-scene field injections of `create_projects_per_id`
(lines 211–215), run on the freshly deep-copied document: set `name` to the
scene ID, set `images.path` to the literal template string
`"images/{id}/rgb.npy"`, set `images.shape` to `[W, H]`, default
`segmentation` to an empty object and set `segmentation.mask_area` to
`[0, 0, W, H]`. -/
def specialize_fields (cfg0 : Json) (id_name : String) (Wd Ht : Int) : Option Json :=
  match cfg0.setKey "name" (.str id_name) with
  | none => none
  | some cfg1 =>
    match cfg1.setKey2 "images" "path" (.str "images/{id}/rgb.npy") with
    | none => none
    | some cfg2 =>
      match cfg2.setKey2 "images" "shape" (.arr [.num Wd, .num Ht]) with
      | none => none
      | some cfg3 =>
        match cfg3.setdefault "segmentation" (.obj []) with
        | none => none
        | some cfg4 =>
            cfg4.setKey2 "segmentation" "mask_area"
              (.arr [.num 0, .num 0, .num Wd, .num Ht])

/-- `cfg = json.loads(json.dumps(base_cfg))` followed by the field
injections. At the level of document values the serialization round-trip is
the identity; its allocation effect is modelled by `deep_copy_alloc` below. -/
def specialize_cfg (base_cfg : Json) (id_name : String) (Wd Ht : Int) : Option Json :=
  specialize_fields base_cfg id_name Wd Ht

theorem getKey_obj (l : List (String × Json)) (k : String) :
    (Json.obj l).getKey k = getA l k := rfl

theorem setKey_obj (l : List (String × Json)) (k : String) (v : Json) :
    (Json.obj l).setKey k v = some (.obj (setA l k v)) := rfl

/-- Reading back the key just assigned yields the assigned value. -/
theorem getA_setA_self (l : List (String × Json)) (k : String) (v : Json) :
    getA (setA l k v) k = some v := by
  induction l with
  | nil => simp [setA, getA]
  | cons a rest ih =>
    obtain ⟨k1, v1⟩ := a
    by_cases h : k1 = k <;> simp [setA, getA, h, ih]

/-- Assigning one key leaves the reads of any other key unchanged. -/
theorem getA_setA_ne (l : List (String × Json)) (k1 k2 : String) (v : Json)
    (h : k1 ≠ k2) : getA (setA l k1 v) k2 = getA l k2 := by
  induction l with
  | nil => simp [setA, getA, h]
  | cons a rest ih =>
    obtain ⟨ka, va⟩ := a
    by_cases ha : ka = k1
    · subst ha
      simp [setA, getA, h, ih]
    · by_cases hb : ka = k2
      · subst hb
        simp [setA, getA, ha, Ne.symm h]
      · simp [setA, getA, ha, hb, ih]

/-- A concrete template document, shaped like `base.json`: a name, an
`images` object and a class table. -/
def demo_base : Json :=
  Json.obj [("name", Json.str "base"),
            ("images", Json.obj [("path", Json.str "placeholder")]),
            ("classes", Json.arr [])]

/-- Claim C4 counterexample: for the concrete template `demo_base` and the
scene IDs `"S1"` and `"S2"`, the stored image path is the same literal
template string `"images/{id}/rgb.npy"` for both scenes — the `{id}`
placeholder is left uninstantiated, so the stored path does not name the
concrete scene, contrary to the claim. -/
theorem claim4_counterexample :
    (specialize_cfg demo_base "S1" 4 3).bind (fun c => c.getKey2 "images" "path") =
      some (Json.str "images/{id}/rgb.npy") ∧
    (specialize_cfg demo_base "S2" 4 3).bind (fun c => c.getKey2 "images" "path") =
      some (Json.str "images/{id}/rgb.npy") ∧
    ("images/{id}/rgb.npy" : String) ≠ "images/S1/rgb.npy" ∧
    ("images/{id}/rgb.npy" : String) ≠ "images/S2/rgb.npy" :=
  ⟨rfl, rfl, by decide, by decide⟩

/-- Claim C4 (amended): for every template whose `images` field is an object
and whose `segmentation` field is absent or an object, the per-scene
configuration contains the scene name, the image-path field set to the
literal template string `"images/{id}/rgb.npy"` (placeholder uninstantiated),
the pixel shape `[W, H]`, and the mask-region rectangle `[0, 0, W, H]`. -/
theorem claim4_cfg_fields (fs imgs : List (String × Json))
    (hi : getA fs "images" = some (Json.obj imgs))
    (hs : getA fs "segmentation" = none ∨
      ∃ sgs : List (String × Json), getA fs "segmentation" = some (Json.obj sgs))
    (id_name : String) (Wd Ht : Int) :
    (specialize_cfg (Json.obj fs) id_name Wd Ht).isSome = true ∧
    (specialize_cfg (Json.obj fs) id_name Wd Ht).bind (fun c => c.getKey "name") =
      some (Json.str id_name) ∧
    (specialize_cfg (Json.obj fs) id_name Wd Ht).bind (fun c => c.getKey2 "images" "path") =
      some (Json.str "images/{id}/rgb.npy") ∧
    (specialize_cfg (Json.obj fs) id_name Wd Ht).bind (fun c => c.getKey2 "images" "shape") =
      some (Json.arr [Json.num Wd, Json.num Ht]) ∧
    (specialize_cfg (Json.obj fs) id_name Wd Ht).bind
        (fun c => c.getKey2 "segmentation" "mask_area") =
      some (Json.arr [Json.num 0, Json.num 0, Json.num Wd, Json.num Ht]) := by
  have nni : ∀ (l : List (String × Json)) (v : Json),
      getA (setA l "name" v) "images" = getA l "images" :=
    fun l v => getA_setA_ne l "name" "images" v (by decide)
  have nns : ∀ (l : List (String × Json)) (v : Json),
      getA (setA l "name" v) "segmentation" = getA l "segmentation" :=
    fun l v => getA_setA_ne l "name" "segmentation" v (by decide)
  have nis : ∀ (l : List (String × Json)) (v : Json),
      getA (setA l "images" v) "segmentation" = getA l "segmentation" :=
    fun l v => getA_setA_ne l "images" "segmentation" v (by decide)
  have nsn : ∀ (l : List (String × Json)) (v : Json),
      getA (setA l "segmentation" v) "name" = getA l "name" :=
    fun l v => getA_setA_ne l "segmentation" "name" v (by decide)
  have nin : ∀ (l : List (String × Json)) (v : Json),
      getA (setA l "images" v) "name" = getA l "name" :=
    fun l v => getA_setA_ne l "images" "name" v (by decide)
  have nsi : ∀ (l : List (String × Json)) (v : Json),
      getA (setA l "segmentation" v) "images" = getA l "images" :=
    fun l v => getA_setA_ne l "segmentation" "images" v (by decide)
  have nsp : ∀ (l : List (String × Json)) (v : Json),
      getA (setA l "shape" v) "path" = getA l "path" :=
    fun l v => getA_setA_ne l "shape" "path" v (by decide)
  rcases hs with hs0 | ⟨sgs, hs0⟩ <;>
    refine ⟨?_, ?_, ?_, ?_, ?_⟩ <;>
      simp [specialize_cfg, specialize_fields, Json.setKey2, Json.setdefault, Json.getKey2,
        getKey_obj, setKey_obj, getA_setA_self, nni, nns, nis, nsn, nin, nsi, nsp, hi, hs0]

/-- Claim C4 (amended) witness: the concrete template `demo_base` (whose
`images` field is an object and which has no `segmentation` field) with scene
ID `"S1"` and shape 4×3. -/
theorem claim4_cfg_fields_witness :
    (getA [("name", Json.str "base"),
           ("images", Json.obj [("path", Json.str "placeholder")]),
           ("classes", Json.arr [])] "images" =
        some (Json.obj [("path", Json.str "placeholder")]) ∧
     getA [("name", Json.str "base"),
           ("images", Json.obj [("path", Json.str "placeholder")]),
           ("classes", Json.arr [])] "segmentation" = none) ∧
    ((specialize_cfg (Json.obj [("name", Json.str "base"),
        ("images", Json.obj [("path", Json.str "placeholder")]),
        ("classes", Json.arr [])]) "S1" 4 3).isSome = true ∧
     (specialize_cfg (Json.obj [("name", Json.str "base"),
        ("images", Json.obj [("path", Json.str "placeholder")]),
        ("classes", Json.arr [])]) "S1" 4 3).bind (fun c => c.getKey "name") =
       some (Json.str "S1") ∧
     (specialize_cfg (Json.obj [("name", Json.str "base"),
        ("images", Json.obj [("path", Json.str "placeholder")]),
        ("classes", Json.arr [])]) "S1" 4 3).bind (fun c => c.getKey2 "images" "path") =
       some (Json.str "images/{id}/rgb.npy") ∧
     (specialize_cfg (Json.obj [("name", Json.str "base"),
        ("images", Json.obj [("path", Json.str "placeholder")]),
        ("classes", Json.arr [])]) "S1" 4 3).bind (fun c => c.getKey2 "images" "shape") =
       some (Json.arr [Json.num 4, Json.num 3]) ∧
     (specialize_cfg (Json.obj [("name", Json.str "base"),
        ("images", Json.obj [("path", Json.str "placeholder")]),
        ("classes", Json.arr [])]) "S1" 4 3).bind
         (fun c => c.getKey2 "segmentation" "mask_area") =
       some (Json.arr [Json.num 0, Json.num 0, Json.num 4, Json.num 3])) :=
  ⟨⟨rfl, rfl⟩,
    claim4_cfg_fields
      [("name", Json.str "base"),
       ("images", Json.obj [("path", Json.str "placeholder")]),
       ("classes", Json.arr [])]
      [("path", Json.str "placeholder")] rfl (Or.inl rfl) "S1" 4 3⟩

/-! ### Deep-copy independence of per-scene documents (claim C5)

Structural sharing is what the deep copy is about, so here documents live in
a heap: a `Store` is a list of documents and an address is an index. A Python
variable such as `base_cfg` or `cfg` holds an address;
`json.loads(json.dumps(x))` allocates a fresh document — sharing no
structure with any existing one — whose value equals the one at `x`;
statements such as `cfg["name"] = id_name` mutate the document in place at
`cfg`'s address. -/

/-- A heap of JSON documents; the address of a document is its index. -/
abbrev Store := List Json

/-- `json.loads(json.dumps(·))` of the document at address `a`: allocate a
fresh document, at a fresh address, whose value is the one read at `a`. -/
def deep_copy_alloc (s : Store) (a : Nat) : Option (Store × Nat) :=
  match s[a]? with
  | some j => some (s ++ [j], s.length)
  | none => none

/-- In-place mutation of the document at address `a`: the document there is
replaced by `f` of its old value, every other address is untouched. -/
def store_modify (s : Store) (a : Nat) (f : Json → Json) : Store :=
  match s[a]? with
  | some j => s.set a (f j)
  | none => s

/-- Lines 210–215 for one scene: deep-copy the template document and run the
field injections on the fresh copy, in place, returning the new store and
the fresh document's address. -/
def create_cfg_doc (s : Store) (t_addr : Nat) (id_name : String) (Wd Ht : Int) :
    Option (Store × Nat) :=
  match deep_copy_alloc s t_addr with
  | none => none
  | some (s1, a) =>
    match s1[a]? with
    | none => none
    | some j =>
      match specialize_fields j id_name Wd Ht with
      | none => none
      | some j2 => some (s1.set a j2, a)

/-- Unfolding a successful `create_cfg_doc`: the fresh address is the old
store's length and the new store is the old one extended by the specialized
copy of the template document. -/
theorem create_cfg_doc_eq_some (s : Store) (t_addr : Nat) (tdoc : Json)
    (ht : s[t_addr]? = some tdoc) (id_name : String) (Wd Ht : Int)
    (s' : Store) (a : Nat) (h : create_cfg_doc s t_addr id_name Wd Ht = some (s', a)) :
    a = s.length ∧ ∃ j2 : Json, specialize_fields tdoc id_name Wd Ht = some j2 ∧
      s' = s ++ [j2] := by
  unfold create_cfg_doc deep_copy_alloc at h
  rw [ht] at h
  dsimp only at h
  rw [List.getElem?_concat_length] at h
  dsimp only at h
  cases hsp : specialize_fields tdoc id_name Wd Ht with
  | none => rw [hsp] at h; exact absurd h (by simp)
  | some j2 =>
    rw [hsp] at h
    simp only [Option.some.injEq, Prod.mk.injEq] at h
    obtain ⟨hs', ha⟩ := h
    refine ⟨ha.symm, j2, rfl, ?_⟩
    rw [← hs']
    rw [List.set_append_right _ _ (Nat.le_refl _)]
    simp

/-- Claim C5: per-scene configurations are structurally independent deep
copies. After building documents for two scenes from the template, the two
fresh addresses and the template's address are pairwise distinct, and any
in-place mutation of the first scene's document leaves the template document
and the second scene's document unchanged. -/
theorem claim5_deep_copy_independent (s : Store) (t_addr : Nat) (tdoc : Json)
    (ht : s[t_addr]? = some tdoc)
    (id1 id2 : String) (W1 H1 W2 H2 : Int)
    (s1 : Store) (a1 : Nat) (h1 : create_cfg_doc s t_addr id1 W1 H1 = some (s1, a1))
    (s2 : Store) (a2 : Nat) (h2 : create_cfg_doc s1 t_addr id2 W2 H2 = some (s2, a2))
    (f : Json → Json) :
    a1 ≠ t_addr ∧ a2 ≠ t_addr ∧ a1 ≠ a2 ∧
    (store_modify s2 a1 f)[t_addr]? = some tdoc ∧
    (store_modify s2 a1 f)[a2]? = s2[a2]? := by
  have htlt : t_addr < s.length := by
    obtain ⟨hlt, _⟩ := List.getElem?_eq_some.mp ht
    exact hlt
  obtain ⟨ha1, j1, hspec1, hs1⟩ := create_cfg_doc_eq_some s t_addr tdoc ht id1 W1 H1 s1 a1 h1
  have ht1 : s1[t_addr]? = some tdoc := by
    rw [hs1, List.getElem?_append, if_pos htlt]
    exact ht
  obtain ⟨ha2, j2, hspec2, hs2⟩ :=
    create_cfg_doc_eq_some s1 t_addr tdoc ht1 id2 W2 H2 s2 a2 h2
  have hlen1 : s1.length = s.length + 1 := by
    rw [hs1]
    simp
  have ht2 : s2[t_addr]? = some tdoc := by
    rw [hs2, List.getElem?_append, if_pos (by omega)]
    exact ht1
  have hne1 : a1 ≠ t_addr := by omega
  have hne2 : a2 ≠ t_addr := by omega
  have hne12 : a1 ≠ a2 := by omega
  refine ⟨hne1, hne2, hne12, ?_, ?_⟩
  · unfold store_modify
    cases hga : s2[a1]? with
    | none => exact ht2
    | some j4 =>
      rw [List.getElem?_set_ne hne1]
      exact ht2
  · unfold store_modify
    cases hga : s2[a1]? with
    | none => rfl
    | some j4 => rw [List.getElem?_set_ne hne12]

/-- A one-document heap holding only the template. -/
def demo_store : Store := [demo_base]

/-- The heap after building scene `"S1"`'s document (address 1). -/
def demo_s1 : Store := ((create_cfg_doc demo_store 0 "S1" 4 3).map Prod.fst).getD []

/-- The heap after also building scene `"S2"`'s document (address 2). -/
def demo_s2 : Store := ((create_cfg_doc demo_s1 0 "S2" 5 6).map Prod.fst).getD []

/-- Claim C5 witness: two concrete scenes built from the one-document heap;
overwriting scene `"S1"`'s whole document leaves the template document and
scene `"S2"`'s document untouched. -/
theorem claim5_deep_copy_independent_witness :
    (1 : Nat) ≠ 0 ∧ (2 : Nat) ≠ 0 ∧ (1 : Nat) ≠ 2 ∧
    (store_modify demo_s2 1 (fun _ => Json.null))[0]? = some demo_base ∧
    (store_modify demo_s2 1 (fun _ => Json.null))[2]? = demo_s2[2]? :=
  claim5_deep_copy_independent demo_store 0 demo_base rfl "S1" "S2" 4 3 5 6
    demo_s1 1 (by rfl) demo_s2 2 (by rfl) (fun _ => Json.null)

end IrisSpot
